import Mathlib

/-!
Shallow embedding of `js/textbatch.js` (a browser-side ComfyUI extension).

The file registers two event handlers (`textbatch-node-feedback`,
`textbatch-add-queue`), overrides `onNodeCreated` / `onRemoved` for a set of
handled node types, and defines two processor-node classes that attach three
button widgets.  We model JavaScript primitive values, truthiness, strict and
loose equality, `parseInt`, the node-identifier cache (a `Map`), and each
handler as an executable function from an explicit state to a new state plus
a trace of observable effects (console logs, widget callbacks, host calls,
scheduled timers).
-/

namespace TextBatch

/-- JavaScript primitive values as they occur in this extension: numbers are
restricted to the integer fragment (all values handled by the code — node
ids, widget values, parse results — are integers or strings), with `NaN`
kept as a separate constructor since it is never equal to anything under
`===` and is falsy. -/
inductive JSVal where
  | num : Int → JSVal
  | nan : JSVal
  | str : String → JSVal
  | bool : Bool → JSVal
  | null : JSVal
  | undefined : JSVal
deriving Repr, DecidableEq

/-- JavaScript truthiness: `0`, `NaN`, `""`, `false`, `null`, `undefined`
are falsy, everything else truthy. -/
def truthy : JSVal → Bool
  | .num n => n != 0
  | .nan => false
  | .str s => s != ""
  | .bool b => b
  | .null => false
  | .undefined => false

/-- JavaScript strict equality `===` on primitives: same type and same
value; `NaN === x` is always false. -/
def strictEq : JSVal → JSVal → Bool
  | .num a, .num b => a == b
  | .str a, .str b => a == b
  | .bool a, .bool b => a == b
  | .null, .null => true
  | .undefined, .undefined => true
  | _, _ => false

def isSpaceChar (c : Char) : Bool :=
  c == ' ' || c == '\t' || c == '\n' || c == '\r'

def hexVal (c : Char) : Option Nat :=
  if c.isDigit then some (c.toNat - 48)
  else if 'a' ≤ c && c ≤ 'f' then some (c.toNat - 87)
  else if 'A' ≤ c && c ≤ 'F' then some (c.toNat - 55)
  else none

def decDigitsToNat (ds : List Char) : Nat :=
  ds.foldl (fun a c => a * 10 + (c.toNat - 48)) 0

def hexDigitsToNat (ds : List Char) : Nat :=
  ds.foldl (fun a c => a * 16 + ((hexVal c).getD 0)) 0

/-- `parseInt` on a string (radix argument omitted, as in the source):
skip leading whitespace, optional sign, then either a `0x`/`0X` hexadecimal
prefix or decimal digits; the longest digit prefix is taken and trailing
characters are ignored; no digits gives `NaN`. -/
def parseIntStr (s : String) : JSVal :=
  let cs := s.toList.dropWhile isSpaceChar
  let (sgn, cs2) : Int × List Char :=
    match cs with
    | '-' :: rest => (-1, rest)
    | '+' :: rest => (1, rest)
    | _ => (1, cs)
  match cs2 with
  | '0' :: c :: rest =>
    if c == 'x' || c == 'X' then
      let ds := rest.takeWhile (fun c => (hexVal c).isSome)
      if ds.isEmpty then .nan else .num (sgn * (hexDigitsToNat ds : Nat))
    else
      let ds := cs2.takeWhile Char.isDigit
      if ds.isEmpty then .nan else .num (sgn * (decDigitsToNat ds : Nat))
  | _ =>
      let ds := cs2.takeWhile Char.isDigit
      if ds.isEmpty then .nan else .num (sgn * (decDigitsToNat ds : Nat))

/-- JavaScript `ToString` on the primitives we model. -/
def toStringJS : JSVal → String
  | .num n => toString n
  | .nan => "NaN"
  | .str s => s
  | .bool b => if b then "true" else "false"
  | .null => "null"
  | .undefined => "undefined"

/-- `parseInt(v)`: the argument is first converted to a string. -/
def parseInt (v : JSVal) : JSVal := parseIntStr (toStringJS v)

/-- JavaScript `ToNumber` on the integer fragment: `none` stands for `NaN`.
A string is a number only when, after trimming whitespace, it is empty
(value 0), an optionally signed decimal-digit string, or a `0x` hexadecimal
literal; fractional literals do not arise from the values this extension
handles. -/
def toNumber : JSVal → Option Int
  | .num n => some n
  | .nan => none
  | .bool b => some (if b then 1 else 0)
  | .null => some 0
  | .undefined => none
  | .str s =>
    let t := ((s.toList.dropWhile isSpaceChar).reverse.dropWhile isSpaceChar).reverse
    if t.isEmpty then some 0
    else
      let (sgn, body) : Int × List Char :=
        match t with
        | '-' :: rest => (-1, rest)
        | '+' :: rest => (1, rest)
        | _ => (1, t)
      match body with
      | '0' :: c :: rest =>
        if c == 'x' || c == 'X' then
          if rest ≠ [] && rest.all (fun c => (hexVal c).isSome) && sgn = 1 then
            some ((hexDigitsToNat rest : Nat) : Int)
          else none
        else
          if body.all Char.isDigit then some (sgn * (decDigitsToNat body : Nat)) else none
      | _ =>
        if body ≠ [] && body.all Char.isDigit then
          some (sgn * (decDigitsToNat body : Nat))
        else none

/-- JavaScript loose equality `==` on the primitives we model (object
identity does not arise: the compared values are node ids, i.e. numbers or
strings). -/
def looseEq (a b : JSVal) : Bool :=
  match a, b with
  | .str x, .str y => x == y
  | .null, .null => true
  | .null, .undefined => true
  | .undefined, .null => true
  | .undefined, .undefined => true
  | .null, _ => false
  | _, .null => false
  | .undefined, _ => false
  | _, .undefined => false
  | a, b =>
    match toNumber a, toNumber b with
    | some x, some y => x == y
    | _, _ => false

/-- A host widget: a name, a mutable value, and an optional change callback
(we record whether one is installed and whether invoking it would throw,
since the callback body is host code outside this extension). -/
structure Widget where
  name : String
  value : JSVal
  hasCallback : Bool
  callbackThrows : Bool
deriving Repr, DecidableEq

/-- A graph node as this extension sees it: the host-assigned identifier
(`-1` until the host finishes initialization) and the widget list. -/
structure Node where
  id : JSVal
  widgets : List Widget
deriving Repr, DecidableEq

/-- Node objects live in an arena indexed by `Nat`; a `Nat` reference plays
the role of a JavaScript object reference. -/
abbrev NodeRef := Nat

/-- The host `app.graph` object, as consumed by the fallback lookups of the
feedback handler: the id-indexed table `_nodes_by_id` (a plain object, so
keys are strings), the `getNodeById` getter (host code, modelled as an
abstract lookup), and the `nodes` array. -/
structure Graph where
  nodesById : List (String × NodeRef)
  getNodeById : JSVal → Option NodeRef
  nodes : List NodeRef

/-- Mutable state owned by (or mutated through) this extension: the node
arena and the module-level `nodeIdMap` cache. -/
structure TBState where
  nodes : List Node
  nodeIdMap : List (JSVal × NodeRef)
deriving Repr, DecidableEq

/-- Observable effects emitted while a handler runs. -/
inductive Effect where
  | logInfo
  | logWarn
  | logError
  | callbackInvoked (widgetName : String) (value : JSVal)
  | queuePrompt (a b : JSVal)
  | addWidget (ref : NodeRef) (widgetName : String)
  | prevCreatedCalled
  | prevRemovedCalled (args : List JSVal)
  | resetTriggered
deriving Repr, DecidableEq

/-- Actions that the handlers schedule with `setTimeout`. -/
inductive TimerAction where
  | queueTrigger
  | deferredInit (ref : NodeRef)
deriving Repr, DecidableEq

structure Timer where
  delay : Nat
  action : TimerAction
deriving Repr, DecidableEq

/-- `nodeIdMap.get(k)`: `Map` keys are compared with SameValueZero, which
agrees with `===` on every key that can reach the map (falsy keys — hence
`NaN` — are rejected or never stored). -/
def mapGet (m : List (JSVal × NodeRef)) (k : JSVal) : Option NodeRef :=
  (m.find? (fun p => strictEq p.1 k)).map (·.2)

/-- `nodeIdMap.set(k, v)`: replace in place if the key is present, else
append in insertion order. -/
def mapSet (m : List (JSVal × NodeRef)) (k : JSVal) (v : NodeRef) :
    List (JSVal × NodeRef) :=
  if m.any (fun p => strictEq p.1 k) then
    m.map (fun p => if strictEq p.1 k then (p.1, v) else p)
  else m ++ [(k, v)]

/-- `nodeIdMap.delete(k)`. -/
def mapDelete (m : List (JSVal × NodeRef)) (k : JSVal) :
    List (JSVal × NodeRef) :=
  m.filter (fun p => !(strictEq p.1 k))

/-- Update the element at an index, leaving the list unchanged when the
index is out of range (models in-place mutation of one object). -/
def listUpdate {α : Type} : List α → Nat → (α → α) → List α
  | [], _, _ => []
  | x :: xs, 0, f => f x :: xs
  | x :: xs, n + 1, f => x :: listUpdate xs n f

/-- The payload of a `textbatch-node-feedback` event (`event.detail`). -/
structure FeedbackData where
  node_id : JSVal
  widget_name : JSVal
  type : JSVal
  value : JSVal
deriving Repr, DecidableEq

/-- Node resolution of the feedback handler (`textbatch.js` lines 24–31 and
280–287): the `nodeIdMap` cache first, then `app.graph._nodes_by_id[nodeId]`
(property keys are strings), then `app.graph.getNodeById(parseInt(nodeId))`,
then a linear scan `[...app.graph.nodes].find(n => n.id == nodeId)` using
loose equality. -/
def nodeLookup (g : Graph) (st : TBState) (nodeId : JSVal) : Option NodeRef :=
  match mapGet st.nodeIdMap nodeId with
  | some r => some r
  | none =>
    match (g.nodesById.find? (fun p => p.1 == toStringJS nodeId)).map (·.2) with
    | some r => some r
    | none =>
      match g.getNodeById (parseInt nodeId) with
      | some r => some r
      | none =>
        g.nodes.find? (fun r =>
          match st.nodes[r]? with
          | some n => looseEq n.id nodeId
          | none => false)

/-- Value coercion of the feedback handler (lines 46–51): `parseInt` when
the type tag is strictly `"int"`, the raw value otherwise. -/
def coerceValue (ty v : JSVal) : JSVal :=
  if strictEq ty (.str "int") then parseInt v else v

/-- Index of the first list element satisfying a predicate (`Array.find`
returns the first match; we track the index so that the in-place mutation
of the found object can be expressed). -/
def firstIdx {α : Type} (p : α → Bool) : List α → Option Nat
  | [] => none
  | x :: xs => if p x then some 0 else (firstIdx p xs).map (· + 1)

/-- `node.widgets.find(w => w.name === data.widget_name)`, as an index. -/
def findWidgetIdx (ws : List Widget) (wname : JSVal) : Option Nat :=
  firstIdx (fun w => strictEq (.str w.name) wname) ws

/-- Body of the `textbatch-node-feedback` handler inside its `try` block
(lines 10–56; the variant at lines 266–312 differs only by optional
chaining on host collections, which the host always provides).  Returns the
new state, the effects emitted inside the `try`, and whether the body threw
(the only throw reachable here is a throwing widget callback, which runs
after the assignment). -/
def feedbackCore (g : Graph) (st : TBState) (data : Option FeedbackData) :
    TBState × List Effect × Bool :=
  match data with
  | none => (st, [.logError], false)
  | some d =>
    if !(truthy d.node_id) then (st, [.logError], false)
    else
      match nodeLookup g st d.node_id with
      | none => (st, [.logInfo, .logWarn], false)
      | some ref =>
        match st.nodes[ref]? with
        | none => (st, [.logInfo], false)
        | some n =>
          match findWidgetIdx n.widgets d.widget_name with
          | none => (st, [.logInfo, .logInfo, .logWarn], false)
          | some i =>
            match n.widgets[i]? with
            | none => (st, [.logInfo, .logInfo], false)
            | some w =>
              let newVal := coerceValue d.type d.value
              let st' : TBState :=
                { st with nodes := listUpdate st.nodes ref (fun m =>
                    { m with widgets := listUpdate m.widgets i (fun x =>
                        { x with value := newVal }) }) }
              let effs :=
                [Effect.logInfo, Effect.logInfo] ++
                (if strictEq d.type (.str "int") then [Effect.logInfo] else []) ++
                (if w.hasCallback then [Effect.callbackInvoked w.name newVal] else [])
              (st', effs, w.hasCallback && w.callbackThrows)

/-- The full `textbatch-node-feedback` handler: the initial `console.log`
runs before the `try`; a throw inside the body is caught at the boundary and
logged (line 57–59). -/
def feedbackHandler (g : Graph) (st : TBState) (data : Option FeedbackData) :
    TBState × List Effect :=
  let r := feedbackCore g st data
  (r.1, Effect.logInfo :: r.2.1 ++ (if r.2.2 then [Effect.logError] else []))

/-- The parts of the host `app` object the queue handler touches:
`isProcessing` (only logged) and whether `app.queuePrompt` throws when
called (host code). -/
structure AppObj where
  isProcessing : Bool
  queuePromptThrows : Bool
deriving Repr, DecidableEq

/-- The synchronous part of the `textbatch-add-queue` handler (lines
63–94): log the event, log again if `app.isProcessing`, serialize and log
the workflow, then schedule a single 100 ms timer that will call
`app.queuePrompt(0, 1)`. -/
def addQueueHandler (a : AppObj) : List Effect × List Timer :=
  ([Effect.logInfo] ++ (if a.isProcessing then [Effect.logInfo] else []) ++
     [Effect.logInfo],
   [⟨100, .queueTrigger⟩])

/-- The scheduled callback of the queue handler (lines 77–86):
`app.queuePrompt(0, 1)` inside its own `try`; a throw from the host call is
caught and logged, the success path logs completion. -/
def runQueueTrigger (a : AppObj) : List Effect :=
  if a.queuePromptThrows then
    [.logInfo, .queuePrompt (.num 0) (.num 1), .logError]
  else
    [.logInfo, .queuePrompt (.num 0) (.num 1), .logInfo]

/-- The status widget attached by `onNodeCreated`
(`this.addWidget("text", "status", "", cb)`). -/
def statusWidget : Widget :=
  { name := "status", value := .str "", hasCallback := true,
    callbackThrows := false }

/-- `nodeIdMap.set(this.id, this)` followed by attaching the status widget
(lines 122–127 and 132–136). -/
def registerAndAddStatus (st : TBState) (ref : NodeRef) :
    TBState × List Effect :=
  match st.nodes[ref]? with
  | none => (st, [])
  | some n =>
    ({ st with
        nodeIdMap := mapSet st.nodeIdMap n.id ref,
        nodes := listUpdate st.nodes ref (fun m =>
          { m with widgets := m.widgets ++ [statusWidget] }) },
     [.addWidget ref "status"])

/-- Identifier validity as the source tests it: the registration branch is
taken when `!(!this.id || this.id === -1)`, i.e. the id is truthy and not
strictly `-1`. -/
def validId (v : JSVal) : Bool :=
  truthy v && !(strictEq v (.num (-1)))

/-- The deferred `setTimeout(..., 0)` callback of `onNodeCreated` (lines
118–129): log the retry, then register and attach the status widget only if
the identifier is now valid; nothing is scheduled again either way. -/
def deferredInit (st : TBState) (ref : NodeRef) :
    TBState × List Effect × List Timer :=
  match st.nodes[ref]? with
  | none => (st, [.logInfo], [])
  | some n =>
    if validId n.id then
      let r := registerAndAddStatus st ref
      (r.1, Effect.logInfo :: r.2, [])
    else (st, [.logInfo], [])

/-- A previously-installed `onNodeCreated` handler: host or third-party
code, so it may throw (there is no `try` around the call at line 112). -/
structure PrevCreated where
  throws : Bool
deriving Repr, DecidableEq

/-- The branch of the overridden `onNodeCreated` after the previous handler
returned (lines 115–137): register immediately when the identifier is
valid, otherwise warn and schedule the single deferred check. -/
def onNodeCreatedBody (st : TBState) (ref : NodeRef) :
    TBState × List Effect × List Timer :=
  match st.nodes[ref]? with
  | none => (st, [], [])
  | some n =>
    if validId n.id then
      let r := registerAndAddStatus st ref
      (r.1, Effect.logInfo :: r.2, [])
    else
      (st, [.logWarn], [⟨0, .deferredInit ref⟩])

/-- The overridden `onNodeCreated` (lines 111–140).  The call to the
previous handler is not wrapped in any `try`, so a throw there propagates
to the caller, modelled as `Except.error`. -/
def onNodeCreated (st : TBState) (ref : NodeRef) (prev : Option PrevCreated) :
    Except Unit (TBState × List Effect × List Timer) :=
  match prev with
  | some p =>
    if p.throws then .error ()
    else
      let r := onNodeCreatedBody st ref
      .ok (r.1, Effect.prevCreatedCalled :: r.2.1, r.2.2)
  | none => .ok (onNodeCreatedBody st ref)

/-- The overridden `onRemoved` of the first variant (lines 144–150): log,
`nodeIdMap.delete(this.id)` unconditionally, then delegate to any
previously-installed handler with the original arguments. -/
def onRemoved (st : TBState) (ref : NodeRef) (args : List JSVal)
    (prevExists : Bool) : TBState × List Effect :=
  match st.nodes[ref]? with
  | none => (st, if prevExists then [.prevRemovedCalled args] else [])
  | some n =>
    ({ st with nodeIdMap := mapDelete st.nodeIdMap n.id },
     [Effect.logInfo] ++ (if prevExists then [.prevRemovedCalled args] else []))

/-- The overridden `onRemoved` of the second variant (lines 394–400): the
delete is guarded by `if (this?.id)`, and the previous handler is called
through optional chaining. -/
def onRemovedV2 (st : TBState) (ref : NodeRef) (args : List JSVal)
    (prevExists : Bool) : TBState × List Effect :=
  match st.nodes[ref]? with
  | none => (st, if prevExists then [.prevRemovedCalled args] else [])
  | some n =>
    if truthy n.id then
      ({ st with nodeIdMap := mapDelete st.nodeIdMap n.id },
       [Effect.logInfo] ++ (if prevExists then [.prevRemovedCalled args] else []))
    else
      (st, if prevExists then [.prevRemovedCalled args] else [])

/-- Run a scheduled timer action against the current state. -/
def runTimerFull (a : AppObj) (st : TBState) (tm : Timer) :
    TBState × List Effect × List Timer :=
  match tm.action with
  | .queueTrigger => (st, runQueueTrigger a, [])
  | .deferredInit ref => deferredInit st ref

/-- Timestamped effect trace of one `textbatch-add-queue` event handled at
time `t`: synchronous effects at `t`, each scheduled timer's effects at
`t + delay`. -/
def queueEventTrace (a : AppObj) (st : TBState) (t : Nat) :
    List (Nat × Effect) :=
  let r := addQueueHandler a
  r.1.map (fun e => (t, e)) ++
    r.2.flatMap (fun tm => ((runTimerFull a st tm).2.1).map (fun e => (t + tm.delay, e)))

def isQueuePromptEff : Effect → Bool
  | .queuePrompt _ _ => true
  | _ => false

def isCallbackEff : Effect → Bool
  | .callbackInvoked _ _ => true
  | _ => false

def isWarnEff : Effect → Bool
  | .logWarn => true
  | _ => false

/-- A processor-node widget: `addWidget("button", name, null, cb)` appends
a widget whose callback is one of the three button actions; the
`start_index` widget has no action. -/
inductive ButtonAction where
  | reset
  | toStart
  | toEnd (slot : Nat)
deriving Repr, DecidableEq

structure PWidget where
  name : String
  value : JSVal
  action : Option ButtonAction
deriving Repr, DecidableEq

/-- A node instance as the `TextQueueProcessorNode` /
`ImageQueueProcessorNode` class bodies (lines 161–244) would manipulate it:
whether a `properties` container exists, the widget list, and the output
slots (`outputs?.[i]?.value`; `none` stands for a missing slot or value).
These class bodies are dead code — the classes are never instantiated and
their methods are never copied onto any node prototype (see
`objectAssignCopied` below) — so the definitions in this group record what
the classes would do, i.e. the evident intent. -/
structure PNode where
  hasProperties : Bool
  widgets : List PWidget
  outputs : Option (List (Option JSVal))
deriving Repr, DecidableEq

/-- The three buttons `addCustomWidgets` would attach (lines 169–190 for
`TextQueueProcessor` with total slot 2, lines 212–233 for
`ImageQueueProcessor` with total slot 3). -/
def customButtons (totalSlot : Nat) : List PWidget :=
  [⟨"🔄 Reset", .null, some .reset⟩,
   ⟨"⏮️ To Start", .null, some .toStart⟩,
   ⟨"⏭️ To End", .null, some (.toEnd totalSlot)⟩]

/-- The class constructor body (lines 162–167 / 205–210): ensure the
`properties` container exists, then attach the three buttons.  Nothing in
the file or the host ever invokes this constructor. -/
def processorConstruct (totalSlot : Nat) (n : PNode) : PNode :=
  let n := if n.hasProperties then n else { n with hasProperties := true }
  { n with widgets := n.widgets ++ customButtons totalSlot }

/-- `this.outputs?.[slot]?.value ?? 0`: the total value, defaulting to `0`
when the outputs array, the slot, or the value is absent (`??` also fires
on `null`). -/
def slotTotal (outputs : Option (List (Option JSVal))) (slot : Nat) : JSVal :=
  match outputs with
  | none => .num 0
  | some os =>
    match os[slot]? with
    | none => .num 0
    | some none => .num 0
    | some (some v) =>
      match v with
      | .null => .num 0
      | .undefined => .num 0
      | v => v

/-- `this.widgets.find(w => w.name === "start_index").value = v`: a throw
(`Except.error`) when no such widget exists, since the source dereferences
the `find` result unconditionally. -/
def setStartIndex (n : PNode) (v : JSVal) : Except Unit PNode :=
  match firstIdx (fun w => w.name == "start_index") n.widgets with
  | none => .error ()
  | some i =>
    .ok { n with widgets := listUpdate n.widgets i (fun w => { w with value := v }) }

/-- `total > 0` with a number literal on the right: numeric comparison,
false when the total is `NaN`. -/
def jsGtZero (v : JSVal) : Bool :=
  match toNumber v with
  | some t => 0 < t
  | none => false

/-- `total - 1`: numeric subtraction. -/
def jsSubOne (v : JSVal) : JSVal :=
  match toNumber v with
  | some t => .num (t - 1)
  | none => .nan

/-- Run one of the button callbacks of the (never-invoked) class bodies.
`reset` would ask the host to serialize the graph and enqueue it
(`triggerReset`, lines 192–200, via `app.graphToPrompt().then(...)`),
recorded as a single effect since both calls are host-owned; the jump
buttons mutate the `start_index` widget. -/
def runButton (n : PNode) : ButtonAction → Except Unit (PNode × List Effect)
  | .reset => .ok (n, [.resetTriggered])
  | .toStart => (setStartIndex n (.num 0)).map (fun n' => (n', []))
  | .toEnd slot =>
    let total := slotTotal n.outputs slot
    if jsGtZero total then
      (setStartIndex n (jsSubOne total)).map (fun n' => (n', []))
    else .ok (n, [])

/-- A JavaScript property descriptor, as far as `Object.assign` is
concerned: the assignment copies a source property only when it is an
enumerable own property. -/
structure PropDescriptor where
  name : String
  enumerable : Bool
deriving Repr, DecidableEq

/-- The property names `Object.assign(target, source)` copies from
`source`: exactly its enumerable own properties. -/
def objectAssignCopied (source : List PropDescriptor) : List String :=
  (source.filter (fun p => p.enumerable)).map (fun p => p.name)

/-- The own properties of `TextQueueProcessorNode.prototype` (class body at
lines 161–201): `constructor`, `addCustomWidgets`, `triggerReset`.  Methods
declared in an ES `class` body are installed non-enumerable, and so is
`constructor`. -/
def textQueueProcessorProto : List PropDescriptor :=
  [⟨"constructor", false⟩, ⟨"addCustomWidgets", false⟩,
   ⟨"triggerReset", false⟩]

/-- The own properties of `ImageQueueProcessorNode.prototype` (class body
at lines 204–244), likewise all non-enumerable. -/
def imageQueueProcessorProto : List PropDescriptor :=
  [⟨"constructor", false⟩, ⟨"addCustomWidgets", false⟩,
   ⟨"triggerReset", false⟩]

def isAddWidgetEff : Effect → Bool
  | .addWidget _ _ => true
  | _ => false

/-! ## Helper lemmas -/

theorem strictEq_refl_of_truthy (v : JSVal) (h : truthy v = true) :
    strictEq v v = true := by
  cases v <;> simp_all [truthy, strictEq]

theorem listUpdate_get?_self {α : Type} (l : List α) (j : Nat) (f : α → α) :
    (listUpdate l j f)[j]? = l[j]?.map f := by
  induction l generalizing j with
  | nil => simp [listUpdate]
  | cons x xs ih =>
    cases j with
    | zero => simp [listUpdate]
    | succ k => simpa [listUpdate] using ih k

theorem firstIdx_get? {α : Type} (p : α → Bool) (l : List α) (i : Nat)
    (h : firstIdx p l = some i) : ∃ x, l[i]? = some x ∧ p x = true := by
  induction l generalizing i with
  | nil => simp [firstIdx] at h
  | cons x xs ih =>
    by_cases hx : p x = true
    · simp [firstIdx, hx] at h
      exact ⟨x, by simp [← h], hx⟩
    · simp [firstIdx, hx] at h
      obtain ⟨j, hj, rfl⟩ := h
      obtain ⟨y, hy, hpy⟩ := ih j hj
      exact ⟨y, by simpa using hy, hpy⟩

theorem mapGet_mapSet_self (m : List (JSVal × NodeRef)) (k : JSVal)
    (v : NodeRef) (hk : strictEq k k = true) :
    mapGet (mapSet m k v) k = some v := by
  induction m with
  | nil => simp [mapSet, mapGet, List.find?, hk]
  | cons p ps ih =>
    by_cases hp : strictEq p.1 k = true
    · simp [mapSet, mapGet, List.any_cons, hp, List.find?]
    · have hpb : strictEq p.1 k = false := by simpa using hp
      by_cases hps : ps.any (fun q => strictEq q.1 k) = true
      · have h1 : mapSet (p :: ps) k v
            = p :: (ps.map (fun q => if strictEq q.1 k then (q.1, v) else q)) := by
          simp [mapSet, List.any_cons, hpb, hps]
        have h2 : mapSet ps k v
            = ps.map (fun q => if strictEq q.1 k then (q.1, v) else q) := by
          simp [mapSet, hps]
        rw [h1, mapGet, List.find?]
        rw [hpb]
        rw [← h2, ← mapGet]
        exact ih
      · have hpsb : ps.any (fun q => strictEq q.1 k) = false := by simpa using hps
        have h1 : mapSet (p :: ps) k v = p :: (ps ++ [(k, v)]) := by
          simp [mapSet, List.any_cons, hpb, hpsb]
        have h2 : mapSet ps k v = ps ++ [(k, v)] := by
          simp [mapSet, hpsb]
        rw [h1, mapGet, List.find?]
        rw [hpb]
        rw [← h2, ← mapGet]
        exact ih

theorem mapDelete_absent (m : List (JSVal × NodeRef)) (k : JSVal)
    (h : mapGet m k = none) : mapDelete m k = m := by
  unfold mapGet at h
  have hf : m.find? (fun p => strictEq p.1 k) = none := by
    cases hcase : m.find? (fun p => strictEq p.1 k) with
    | none => rfl
    | some x => rw [hcase] at h; simp at h
  unfold mapDelete
  rw [List.filter_eq_self]
  intro a ha
  have := List.find?_eq_none.mp hf a ha
  simpa using this

/-- The widget value stored at node `ref`, widget index `i`. -/
def widgetValueAt (st : TBState) (ref i : Nat) : Option JSVal :=
  match st.nodes[ref]? with
  | some n => (n.widgets[i]?).map (·.value)
  | none => none

/-- On the success path (node resolved, widget found) the feedback handler
computes exactly: the widget assignment plus the log/callback/error trace. -/
theorem feedback_success_eq (g : Graph) (st : TBState) (d : FeedbackData)
    (ref i : Nat) (n : Node) (w : Widget)
    (hid : truthy d.node_id = true)
    (hres : nodeLookup g st d.node_id = some ref)
    (hn : st.nodes[ref]? = some n)
    (hw : findWidgetIdx n.widgets d.widget_name = some i)
    (hwi : n.widgets[i]? = some w) :
    feedbackHandler g st (some d) =
      ({ st with nodes := listUpdate st.nodes ref (fun m =>
           { m with widgets := listUpdate m.widgets i (fun x =>
               { x with value := coerceValue d.type d.value }) }) },
       Effect.logInfo ::
         ([Effect.logInfo, Effect.logInfo] ++
           (if strictEq d.type (.str "int") then [Effect.logInfo] else []) ++
           (if w.hasCallback then
              [Effect.callbackInvoked w.name (coerceValue d.type d.value)]
            else [])) ++
         (if w.hasCallback && w.callbackThrows then [Effect.logError] else [])) := by
  simp [feedbackHandler, feedbackCore, hid, hres, hn, hw, hwi, coerceValue]

/-! ## Concrete example environments used by the witnesses -/

def exGraph : Graph :=
  { nodesById := [], getNodeById := fun _ => none, nodes := [] }

def exWidget : Widget :=
  { name := "start_index", value := .num 5, hasCallback := true,
    callbackThrows := false }

def exNode : Node := { id := .num 3, widgets := [exWidget] }

def exState : TBState := { nodes := [exNode], nodeIdMap := [(.num 3, 0)] }

def exData : FeedbackData :=
  { node_id := .num 3, widget_name := .str "start_index", type := .str "int",
    value := .str "42" }

/-! ## Claims -/

/-- C1: for every `textbatch-node-feedback` event whose `node_id` resolves
to a node (via the identifier cache or the host fallbacks) and whose
`widget_name` matches a widget on that node, after the handler runs the
widget's value equals the type-coerced event value (`parseInt` of the value
when the type is `"int"`, the raw value otherwise), and, when the widget
has a callback, that callback is invoked exactly once with exactly that
coerced value. -/
theorem feedback_known_node_updates_widget_and_calls_callback_once
    (g : Graph) (st : TBState) (d : FeedbackData) (ref i : Nat)
    (n : Node) (w : Widget)
    (hid : truthy d.node_id = true)
    (hres : nodeLookup g st d.node_id = some ref)
    (hn : st.nodes[ref]? = some n)
    (hw : findWidgetIdx n.widgets d.widget_name = some i)
    (hwi : n.widgets[i]? = some w) :
    widgetValueAt (feedbackHandler g st (some d)).1 ref i
        = some (coerceValue d.type d.value)
      ∧ (feedbackHandler g st (some d)).2.filter isCallbackEff
        = (if w.hasCallback then
             [Effect.callbackInvoked w.name (coerceValue d.type d.value)]
           else []) := by
  rw [feedback_success_eq g st d ref i n w hid hres hn hw hwi]
  constructor
  · simp [widgetValueAt, listUpdate_get?_self, hn, hwi]
  · cases hcb : w.hasCallback <;> cases hct : w.callbackThrows <;>
      cases hint : strictEq d.type (.str "int") <;>
        simp [isCallbackEff, hcb, hct, hint]

/-- Witness for C1: a cached node with id 3 and an int-typed event carrying
`"42"`; the `start_index` widget ends at `42` and its callback fires once
with `42`. -/
theorem feedback_known_node_updates_widget_and_calls_callback_once_witness :
    truthy exData.node_id = true
    ∧ nodeLookup exGraph exState exData.node_id = some 0
    ∧ exState.nodes[0]? = some exNode
    ∧ findWidgetIdx exNode.widgets exData.widget_name = some 0
    ∧ widgetValueAt (feedbackHandler exGraph exState (some exData)).1 0 0
        = some (.num 42)
    ∧ (feedbackHandler exGraph exState (some exData)).2.filter isCallbackEff
        = [Effect.callbackInvoked "start_index" (.num 42)] := by
  have h := feedback_known_node_updates_widget_and_calls_callback_once
    exGraph exState exData 0 0 exNode exWidget rfl rfl rfl rfl rfl
  refine ⟨rfl, rfl, rfl, rfl, ?_, ?_⟩
  · simpa [coerceValue, parseInt, parseIntStr, toStringJS] using h.1
  · simpa [exWidget, coerceValue, parseInt, parseIntStr, toStringJS] using h.2

/-- C2: for every `textbatch-node-feedback` event with type tag `"int"` the
value assigned to the target widget is the integer parse of the event value
— in particular value `"42"` yields the number `42`, not the string — and
for every other type tag the raw event value is assigned unchanged. -/
theorem feedback_int_coercion :
    (∀ (g : Graph) (st : TBState) (d : FeedbackData) (ref i : Nat)
        (n : Node) (w : Widget),
      truthy d.node_id = true →
      nodeLookup g st d.node_id = some ref →
      st.nodes[ref]? = some n →
      findWidgetIdx n.widgets d.widget_name = some i →
      n.widgets[i]? = some w →
      d.type = .str "int" →
      widgetValueAt (feedbackHandler g st (some d)).1 ref i
        = some (parseInt d.value))
    ∧ (∀ (g : Graph) (st : TBState) (d : FeedbackData) (ref i : Nat)
        (n : Node) (w : Widget),
      truthy d.node_id = true →
      nodeLookup g st d.node_id = some ref →
      st.nodes[ref]? = some n →
      findWidgetIdx n.widgets d.widget_name = some i →
      n.widgets[i]? = some w →
      strictEq d.type (.str "int") = false →
      widgetValueAt (feedbackHandler g st (some d)).1 ref i
        = some d.value)
    ∧ parseInt (.str "42") = .num 42 := by
  refine ⟨?_, ?_, rfl⟩
  · intro g st d ref i n w hid hres hn hw hwi hty
    have h := feedback_success_eq g st d ref i n w hid hres hn hw hwi
    rw [h]
    simp [widgetValueAt, listUpdate_get?_self, hn, hwi, coerceValue, hty,
      strictEq]
  · intro g st d ref i n w hid hres hn hw hwi hty
    have h := feedback_success_eq g st d ref i n w hid hres hn hw hwi
    rw [h]
    simp [widgetValueAt, listUpdate_get?_self, hn, hwi, coerceValue, hty]

/-- Witness for C2: the int-typed event with value `"42"` assigns the
number `42`. -/
theorem feedback_int_coercion_witness :
    truthy exData.node_id = true ∧ exData.type = .str "int"
    ∧ widgetValueAt (feedbackHandler exGraph exState (some exData)).1 0 0
        = some (parseInt (.str "42"))
    ∧ parseInt (.str "42") = .num 42 :=
  ⟨rfl, rfl,
   feedback_int_coercion.1 exGraph exState exData 0 0 exNode exWidget
     rfl rfl rfl rfl rfl rfl,
   feedback_int_coercion.2.2⟩

/-- C3: for every `textbatch-node-feedback` event whose `node_id` is
present (truthy) but matches no node in the identifier cache nor via any of
the three host fallback lookups, the handler mutates no widget of any node
(the state is returned unchanged) and logs exactly one warning. -/
theorem feedback_unknown_node_no_mutation_one_warning
    (g : Graph) (st : TBState) (d : FeedbackData)
    (hid : truthy d.node_id = true)
    (hres : nodeLookup g st d.node_id = none) :
    feedbackHandler g st (some d)
        = (st, [Effect.logInfo, Effect.logInfo, Effect.logWarn])
      ∧ ((feedbackHandler g st (some d)).2.filter isWarnEff).length = 1 := by
  have h : feedbackHandler g st (some d)
      = (st, [Effect.logInfo, Effect.logInfo, Effect.logWarn]) := by
    simp [feedbackHandler, feedbackCore, hid, hres]
  exact ⟨h, by rw [h]; rfl⟩

/-- Witness for C3: id 99 is in no cache and no host collection; the state
is unchanged and exactly one warning is logged. -/
theorem feedback_unknown_node_no_mutation_one_warning_witness :
    truthy (JSVal.num 99) = true
    ∧ nodeLookup exGraph exState (.num 99) = none
    ∧ feedbackHandler exGraph exState
        (some { exData with node_id := .num 99 })
        = (exState, [Effect.logInfo, Effect.logInfo, Effect.logWarn]) :=
  ⟨rfl, rfl,
   (feedback_unknown_node_no_mutation_one_warning exGraph exState
     { exData with node_id := .num 99 } rfl rfl).1⟩

/-- C9: for every `textbatch-node-feedback` event whose payload `node_id`
is falsy — including the number `0` and the empty string, not only a
missing field — the handler treats the payload as invalid, logs an error,
and returns with the state untouched; consequently a node cached under the
host-assigned identifier `0` can never receive feedback. -/
theorem feedback_falsy_node_id_rejected
    (g : Graph) (st : TBState) (d : FeedbackData)
    (h : truthy d.node_id = false) :
    feedbackHandler g st (some d) = (st, [Effect.logInfo, Effect.logError]) := by
  simp [feedbackHandler, feedbackCore, h]

/-- Witness for C9: a node is cached under id `0`, yet the event with
`node_id: 0` is rejected with one error log and no mutation; `""` is
likewise falsy. -/
theorem feedback_falsy_node_id_rejected_witness :
    truthy (JSVal.num 0) = false
    ∧ truthy (JSVal.str "") = false
    ∧ mapGet [((JSVal.num 0 : JSVal), (0 : NodeRef))] (.num 0) = some 0
    ∧ feedbackHandler exGraph { nodes := [exNode], nodeIdMap := [(.num 0, 0)] }
        (some { exData with node_id := .num 0 })
        = ({ nodes := [exNode], nodeIdMap := [(.num 0, 0)] },
           [Effect.logInfo, Effect.logError]) :=
  ⟨rfl, rfl, rfl,
   feedback_falsy_node_id_rejected exGraph
     { nodes := [exNode], nodeIdMap := [(.num 0, 0)] }
     { exData with node_id := .num 0 } rfl⟩

/-- C10: for every `textbatch-node-feedback` event with type `"int"` whose
value does not parse as an integer, the target widget's value is still
assigned — it becomes `NaN` — and the widget's callback, if present, is
still invoked once with `NaN`; the handler does not reject or skip the
assignment. -/
theorem feedback_int_nonnumeric_assigns_nan
    (g : Graph) (st : TBState) (d : FeedbackData) (ref i : Nat)
    (n : Node) (w : Widget)
    (hid : truthy d.node_id = true)
    (hres : nodeLookup g st d.node_id = some ref)
    (hn : st.nodes[ref]? = some n)
    (hw : findWidgetIdx n.widgets d.widget_name = some i)
    (hwi : n.widgets[i]? = some w)
    (hty : d.type = .str "int")
    (hvp : parseInt d.value = .nan) :
    widgetValueAt (feedbackHandler g st (some d)).1 ref i = some .nan
      ∧ (feedbackHandler g st (some d)).2.filter isCallbackEff
        = (if w.hasCallback then [Effect.callbackInvoked w.name .nan]
           else []) := by
  have h := feedback_success_eq g st d ref i n w hid hres hn hw hwi
  have hco : coerceValue d.type d.value = .nan := by
    simp [coerceValue, hty, strictEq, hvp]
  rw [h, hco]
  constructor
  · simp [widgetValueAt, listUpdate_get?_self, hn, hwi, hco]
  · cases hcb : w.hasCallback <;> cases hct : w.callbackThrows <;>
      cases hint : strictEq d.type (.str "int") <;>
        simp [isCallbackEff, hcb, hct, hint]

/-- Witness for C10: value `"abc"` with type `"int"` drives the widget to
`NaN` and its callback fires once with `NaN`. -/
theorem feedback_int_nonnumeric_assigns_nan_witness :
    parseInt (.str "abc") = .nan
    ∧ widgetValueAt (feedbackHandler exGraph exState
        (some { exData with value := .str "abc" })).1 0 0 = some .nan
    ∧ (feedbackHandler exGraph exState
        (some { exData with value := .str "abc" })).2.filter isCallbackEff
        = [Effect.callbackInvoked "start_index" .nan] := by
  have h := feedback_int_nonnumeric_assigns_nan exGraph exState
    { exData with value := .str "abc" } 0 0 exNode exWidget
    rfl rfl rfl rfl rfl rfl rfl
  exact ⟨rfl, h.1, by simpa [exWidget] using h.2⟩

/-- C4: for every `textbatch-add-queue` event, the host's enqueue operation
`app.queuePrompt` is called exactly once, with prompt index `0` and
priority `1`, and no earlier than the configured 100-time-unit delay after
the event is handled. -/
theorem add_queue_calls_queue_prompt_once_after_delay
    (a : AppObj) (st : TBState) (t : Nat) :
    (queueEventTrace a st t).filter (fun p => isQueuePromptEff p.2)
        = [(t + 100, Effect.queuePrompt (.num 0) (.num 1))]
      ∧ ∀ p ∈ queueEventTrace a st t, isQueuePromptEff p.2 = true →
          t + 100 ≤ p.1 := by
  cases hp : a.isProcessing <;> cases hq : a.queuePromptThrows <;>
    constructor <;>
      simp [queueEventTrace, addQueueHandler, runTimerFull, runQueueTrigger,
        isQueuePromptEff, hp, hq]

/-- Witness for C4 at a concrete host state and time. -/
theorem add_queue_calls_queue_prompt_once_after_delay_witness :
    (queueEventTrace { isProcessing := false, queuePromptThrows := false }
        exState 7).filter (fun p => isQueuePromptEff p.2)
      = [(107, Effect.queuePrompt (.num 0) (.num 1))] :=
  (add_queue_calls_queue_prompt_once_after_delay
    { isProcessing := false, queuePromptThrows := false } exState 7).1

/-- C5: for every handled node created with an invalid identifier (`-1` or
missing), `onNodeCreated` leaves the cache and the node untouched and
schedules exactly one zero-delay deferred check; the deferred check
registers the node and attaches the status widget only when it observes a
valid identifier, and when the identifier is still invalid it changes
nothing and schedules no further retry. -/
theorem invalid_id_registration_deferred_once
    (st : TBState) (ref : Nat) (n : Node) (prev : Option PrevCreated)
    (hn : st.nodes[ref]? = some n)
    (hinv : validId n.id = false)
    (hp : ∀ p, prev = some p → p.throws = false) :
    (∃ effs, onNodeCreated st ref prev
        = .ok (st, effs, [⟨0, .deferredInit ref⟩])
      ∧ effs.filter isAddWidgetEff = [])
    ∧ (∀ (st2 : TBState) (n2 : Node), st2.nodes[ref]? = some n2 →
        validId n2.id = false →
        deferredInit st2 ref = (st2, [Effect.logInfo], []))
    ∧ (∀ (st2 : TBState) (n2 : Node), st2.nodes[ref]? = some n2 →
        validId n2.id = true →
        mapGet (deferredInit st2 ref).1.nodeIdMap n2.id = some ref
        ∧ (deferredInit st2 ref).1.nodes[ref]?
            = some { n2 with widgets := n2.widgets ++ [statusWidget] }
        ∧ (deferredInit st2 ref).2.2 = []) := by
  refine ⟨?_, ?_, ?_⟩
  · cases prev with
    | none =>
      exact ⟨[.logWarn], by simp [onNodeCreated, onNodeCreatedBody, hn, hinv],
        rfl⟩
    | some p =>
      have hpt : p.throws = false := hp p rfl
      exact ⟨[.prevCreatedCalled, .logWarn],
        by simp [onNodeCreated, onNodeCreatedBody, hn, hinv, hpt], rfl⟩
  · intro st2 n2 hn2 hinv2
    simp [deferredInit, hn2, hinv2]
  · intro st2 n2 hn2 hval2
    have htr : truthy n2.id = true := by
      have h2 := hval2
      simp [validId] at h2
      exact h2.1
    have hrefl := strictEq_refl_of_truthy n2.id htr
    refine ⟨?_, ?_, ?_⟩
    · simp [deferredInit, hn2, hval2, registerAndAddStatus,
        mapGet_mapSet_self _ _ _ hrefl]
    · simp [deferredInit, hn2, hval2, registerAndAddStatus,
        listUpdate_get?_self]
    · simp [deferredInit, hn2, hval2, registerAndAddStatus]

/-- Witness for C5: a freshly created node whose identifier is `-1`, and
the two deferred outcomes (still `-1`; later assigned `7`). -/
theorem invalid_id_registration_deferred_once_witness :
    ({ nodes := [{ id := .num (-1), widgets := [] }], nodeIdMap := [] }
        : TBState).nodes[0]? = some { id := .num (-1), widgets := [] }
    ∧ validId (.num (-1)) = false
    ∧ (∃ effs,
        onNodeCreated
          { nodes := [{ id := .num (-1), widgets := [] }], nodeIdMap := [] }
          0 none
          = .ok ({ nodes := [{ id := .num (-1), widgets := [] }],
                   nodeIdMap := [] }, effs, [⟨0, .deferredInit 0⟩])
        ∧ effs.filter isAddWidgetEff = [])
    ∧ deferredInit
        { nodes := [{ id := .num (-1), widgets := [] }], nodeIdMap := [] } 0
        = ({ nodes := [{ id := .num (-1), widgets := [] }], nodeIdMap := [] },
           [Effect.logInfo], [])
    ∧ mapGet (deferredInit
        { nodes := [{ id := .num 7, widgets := [] }], nodeIdMap := [] }
        0).1.nodeIdMap (.num 7) = some 0 := by
  have h := invalid_id_registration_deferred_once
    { nodes := [{ id := .num (-1), widgets := [] }], nodeIdMap := [] }
    0 { id := .num (-1), widgets := [] } none rfl rfl
    (fun p hp => nomatch hp)
  exact ⟨rfl, rfl, h.1, h.2.1 _ _ rfl rfl,
    (h.2.2 { nodes := [{ id := .num 7, widgets := [] }], nodeIdMap := [] }
      { id := .num 7, widgets := [] } rfl rfl).1⟩

def isPrevRemovedEff : Effect → Bool
  | .prevRemovedCalled _ => true
  | _ => false

/-- C6: for every removal of a handled node whose identifier was never
registered in the identifier cache, the cache eviction is a no-op (the
cache — indeed the whole state — is unchanged) and any previously-installed
`onRemoved` handler is still invoked exactly once with the original
arguments; this holds for both variants of the override. -/
theorem unregistered_removal_eviction_noop_still_delegates
    (st : TBState) (ref : Nat) (n : Node) (args : List JSVal)
    (prevExists : Bool)
    (hn : st.nodes[ref]? = some n)
    (hreg : mapGet st.nodeIdMap n.id = none) :
    (onRemoved st ref args prevExists).1 = st
    ∧ (onRemoved st ref args prevExists).2.filter isPrevRemovedEff
        = (if prevExists then [.prevRemovedCalled args] else [])
    ∧ (onRemovedV2 st ref args prevExists).1 = st
    ∧ (onRemovedV2 st ref args prevExists).2.filter isPrevRemovedEff
        = (if prevExists then [.prevRemovedCalled args] else []) := by
  have hdel := mapDelete_absent st.nodeIdMap n.id hreg
  refine ⟨?_, ?_, ?_, ?_⟩
  · simp [onRemoved, hn, hdel]
  · cases prevExists <;> simp [onRemoved, hn, isPrevRemovedEff]
  · cases htr : truthy n.id <;> simp [onRemovedV2, hn, htr, hdel]
  · cases htr : truthy n.id <;> cases prevExists <;>
      simp [onRemovedV2, hn, htr, isPrevRemovedEff]

/-- Witness for C6: a node with id 3 removed while the cache only holds an
entry for id 5. -/
theorem unregistered_removal_eviction_noop_still_delegates_witness :
    ({ nodes := [exNode], nodeIdMap := [(.num 5, 4)] } : TBState).nodes[0]?
        = some exNode
    ∧ mapGet [((JSVal.num 5 : JSVal), (4 : NodeRef))] exNode.id = none
    ∧ (onRemoved { nodes := [exNode], nodeIdMap := [(.num 5, 4)] } 0
        [.num 3] true).1 = { nodes := [exNode], nodeIdMap := [(.num 5, 4)] }
    ∧ (onRemoved { nodes := [exNode], nodeIdMap := [(.num 5, 4)] } 0
        [.num 3] true).2.filter isPrevRemovedEff
        = [.prevRemovedCalled [.num 3]] := by
  have h := unregistered_removal_eviction_noop_still_delegates
    { nodes := [exNode], nodeIdMap := [(.num 5, 4)] } 0 exNode
    [.num 3] true rfl rfl
  exact ⟨rfl, rfl, h.1, by simpa using h.2.1⟩

/-- C7 (amended): errors raised inside the two named event handlers —
including inside the scheduled queue callback — are caught at the handler
boundary and logged, and the state reached inside the `try` is kept; the
node lifecycle overrides (`onNodeCreated` / `onRemoved`) have no `try`
around them, so an error thrown by a previously-installed `onNodeCreated`
handler propagates to the caller. -/
theorem event_handler_errors_caught_lifecycle_errors_propagate :
    (∀ (g : Graph) (st : TBState) (d : Option FeedbackData),
      (feedbackCore g st d).2.2 = true →
      (feedbackHandler g st d).1 = (feedbackCore g st d).1
      ∧ Effect.logError ∈ (feedbackHandler g st d).2)
    ∧ (∀ a : AppObj, a.queuePromptThrows = true →
        Effect.logError ∈ runQueueTrigger a)
    ∧ (∀ (st : TBState) (ref : Nat) (p : PrevCreated), p.throws = true →
        onNodeCreated st ref (some p) = .error ()) := by
  refine ⟨?_, ?_, ?_⟩
  · intro g st d h
    exact ⟨rfl, by simp [feedbackHandler, h]⟩
  · intro a h
    simp [runQueueTrigger, h]
  · intro st ref p h
    simp [onNodeCreated, h]

def exThrowWidget : Widget :=
  { name := "start_index", value := .num 5, hasCallback := true,
    callbackThrows := true }

def exThrowState : TBState :=
  { nodes := [{ id := .num 3, widgets := [exThrowWidget] }],
    nodeIdMap := [(.num 3, 0)] }

def exBareState : TBState :=
  { nodes := [{ id := .num 4, widgets := [] }], nodeIdMap := [] }

/-- Counterexample to C7 as stated: the claim extends the catch-at-boundary
guarantee to the node lifecycle handlers, but `onNodeCreated` wraps the
call to the previously-installed handler in no `try`, so a throwing
previous handler makes the whole override throw. -/
theorem lifecycle_handler_error_propagates_counterexample :
    onNodeCreated exBareState 0 (some { throws := true }) = .error () := rfl

/-- Witness for C7 (amended): a cached widget whose callback throws — the
feedback handler still returns normally, keeps the assignment, and logs the
error. -/
theorem event_handler_errors_caught_lifecycle_errors_propagate_witness :
    (feedbackCore exGraph exThrowState (some exData)).2.2 = true
    ∧ Effect.logError ∈ (feedbackHandler exGraph exThrowState (some exData)).2 :=
  ⟨rfl,
   (event_handler_errors_caught_lifecycle_errors_propagate.1 exGraph
     exThrowState (some exData) rfl).2⟩

/-- The add-widget effects of `onNodeCreatedBody` are at most the single
status-widget attachment. -/
theorem onNodeCreatedBody_addWidget_status (st : TBState) (ref : Nat) :
    (onNodeCreatedBody st ref).2.1.filter isAddWidgetEff = []
    ∨ (onNodeCreatedBody st ref).2.1.filter isAddWidgetEff
        = [.addWidget ref "status"] := by
  cases hn : st.nodes[ref]? with
  | none => left; simp [onNodeCreatedBody, hn]
  | some n =>
    cases hv : validId n.id with
    | false => left; simp [onNodeCreatedBody, hn, hv, isAddWidgetEff]
    | true =>
      right
      simp [onNodeCreatedBody, hn, hv, registerAndAddStatus, isAddWidgetEff]

/-- C8 (evaluating the code at the failing input): the claim matches the
evident intent — the class bodies at lines 161–244 define exactly the
reset / jump-to-start / jump-to-end buttons — but the program never
attaches them to any node.  The registration at lines 247–257 is
`Object.assign(nodeType.prototype, Cls.prototype)`, which copies only
enumerable own properties, and ES class methods are non-enumerable, so it
copies nothing; the class constructor, the only caller of
`addCustomWidgets`, is never invoked.  At an actual node construction the
only widget this extension ever attaches — in the immediate and in the
deferred branch alike — is the `"status"` text widget, never a button
(`ImageQueueProcessor` is not even in the handled-type list of the
`onNodeCreated` override, so no code of this file runs on its creation at
all). -/
theorem processor_buttons_never_attached_on_construction :
    objectAssignCopied textQueueProcessorProto = []
    ∧ objectAssignCopied imageQueueProcessorProto = []
    ∧ (∀ slot : Nat, (customButtons slot).map (fun w => w.name)
        = ["🔄 Reset", "⏮️ To Start", "⏭️ To End"])
    ∧ (∀ (st : TBState) (ref : Nat) (prev : Option PrevCreated)
        (r : TBState × List Effect × List Timer),
        onNodeCreated st ref prev = .ok r →
        r.2.1.filter isAddWidgetEff = []
        ∨ r.2.1.filter isAddWidgetEff = [.addWidget ref "status"])
    ∧ (∀ (st : TBState) (ref : Nat),
        (deferredInit st ref).2.1.filter isAddWidgetEff = []
        ∨ (deferredInit st ref).2.1.filter isAddWidgetEff
            = [.addWidget ref "status"]) := by
  refine ⟨rfl, rfl, fun slot => rfl, ?_, ?_⟩
  · intro st ref prev r h
    cases prev with
    | none =>
      simp [onNodeCreated] at h
      rw [← h]
      exact onNodeCreatedBody_addWidget_status st ref
    | some p =>
      cases hpt : p.throws with
      | true => simp [onNodeCreated, hpt] at h
      | false =>
        simp [onNodeCreated, hpt] at h
        rw [← h]
        simpa [isAddWidgetEff] using onNodeCreatedBody_addWidget_status st ref
  · intro st ref
    cases hn : st.nodes[ref]? with
    | none => left; simp [deferredInit, hn, isAddWidgetEff]
    | some n =>
      cases hv : validId n.id with
      | false => left; simp [deferredInit, hn, hv, isAddWidgetEff]
      | true =>
        right
        simp [deferredInit, hn, hv, registerAndAddStatus, isAddWidgetEff]

/-- Witness for C8 at the concrete failing input: constructing the cached
node with id 3 attaches only the status widget, no button. -/
theorem processor_buttons_never_attached_on_construction_witness :
    ∃ r, onNodeCreated exState 0 none = .ok r
      ∧ (r.2.1.filter isAddWidgetEff = []
         ∨ r.2.1.filter isAddWidgetEff = [.addWidget 0 "status"]) := by
  refine ⟨_, rfl, ?_⟩
  exact processor_buttons_never_attached_on_construction.2.2.2.1
    exState 0 none _ rfl

end TextBatch
